import Mathlib

/-!
Shallow embedding of the hybrid OCR pipeline of `app/services/google_client.py`
(class `VisionService`), together with a spec-modelled page-range resolver
(the range-aware entry `detect_text_from_path`, invoked from `app/main.py`,
is not among the sources; only its caller is).

External effects are made explicit:
* raw file content is a list of byte values;
* `pdfplumber.open` / `page.extract_text`, `convert_from_bytes`,
  `pil_image.save` and `client.document_text_detection` are fields of a
  `VisionEnv` record, and a raised Python exception is an `Except.error`;
* every embedded pipeline function returns, besides its text, the number
  of `document_text_detection` calls performed (the recognition-cost
  counter the spec's zero-call property is about).
-/

/-- Raw file content: a list of byte values (Python `bytes`). -/
abbrev Bytes := List Nat

/-- The relevant part of a Vision API response: `response.error.message`
(empty when absent) and the `description` field of each entry of the
response's text annotation list, in order. -/
structure RecoResponse where
  errorMessage : String
  texts : List String

/-- The external capabilities consumed by `VisionService`, over an abstract
type `Img` of PIL images.  `Except.error` models a raised exception. -/
structure VisionEnv (Img : Type) where
  /-- `pdfplumber.open` on the given bytes: the list of pages, each holding
  the outcome of `page.extract_text()` (`Except.ok none` = Python `None`). -/
  openPdf : Bytes → Except String (List (Except String (Option String)))
  /-- `pdf2image.convert_from_bytes(pdf_bytes, dpi=300)`. -/
  convertImages : Bytes → Except String (List Img)
  /-- `pil_image.save(buf, format='PNG')` followed by `buf.getvalue()`. -/
  toPng : Img → Except String Bytes
  /-- `client.document_text_detection` on image content bytes. -/
  detect : Bytes → Except String RecoResponse

/-- Python `str.isspace` on a single character: the character set removed
by `text.strip()` in `_is_text_quality_good`. -/
def pyIsSpace (c : Char) : Bool :=
  c.toNat = 0x20 || c.toNat = 0x09 || c.toNat = 0x0a || c.toNat = 0x0d ||
  c.toNat = 0x0b || c.toNat = 0x0c ||
  (0x1c ≤ c.toNat && c.toNat ≤ 0x1f) || c.toNat = 0x85 || c.toNat = 0xa0 ||
  c.toNat = 0x1680 || (0x2000 ≤ c.toNat && c.toNat ≤ 0x200a) ||
  c.toNat = 0x2028 || c.toNat = 0x2029 || c.toNat = 0x202f ||
  c.toNat = 0x205f || c.toNat = 0x3000

/-- `text.strip()` on the character list of the text. -/
def pyStrip (l : List Char) : List Char :=
  ((l.dropWhile pyIsSpace).reverse.dropWhile pyIsSpace).reverse

/-- `text.count('(cid:')`: number of non-overlapping occurrences of the
five-character marker, scanned left to right (the marker cannot overlap
itself, so this is every occurrence). -/
def countCid : List Char → Nat
  | '(' :: 'c' :: 'i' :: 'd' :: ':' :: rest => countCid rest + 1
  | _ :: rest => countCid rest
  | [] => 0

/-- `sum(1 for c in text if ord(c) < 32 and c not in '\n\t\r')`. -/
def countCtrl (l : List Char) : Nat :=
  (l.filter (fun c => c.toNat < 32 && c != '\n' && c != '\t' && c != '\r')).length

/-- `VisionService._is_text_quality_good`.  The Python float comparison
`(count / len) * 100 > p` is embedded as the exact integer comparison
`count * 100 > p * len`; the two agree except for representation noise
exactly at the threshold, and agree at every input considered here. -/
def is_text_quality_good (text : String) : Bool :=
  if text = "" ∨ (pyStrip text.data).length < 50 then false
  else if countCid text.data * 100 > 5 * text.length then false
  else if countCtrl text.data * 100 > 10 * text.length then false
  else true

/-- `VisionService._is_pdf`: magic-byte check `file_bytes[:4] == b'%PDF'`. -/
def is_pdf (b : Bytes) : Bool :=
  b.take 4 == [0x25, 0x50, 0x44, 0x46]

/-- The page block `f"--- Page {page_num} ---\n{page_text}\n"` used by both
extraction paths. -/
def pageHeaderBlock (n : Nat) (t : String) : String :=
  "--- Page " ++ toString n ++ " ---\n" ++ t ++ "\n"

/-- `VisionService._extract_text_directly_from_pdf`: for each page (numbered
from 1) that yields non-empty text, append its page block; a per-page
exception (`continue`) and a falsy `page.extract_text()` result (`None` or
the empty string) are skipped; join with a newline.  An exception opening
the PDF is caught and yields the empty string. -/
def extract_text_directly_from_pdf {Img : Type} (env : VisionEnv Img)
    (b : Bytes) : String :=
  match env.openPdf b with
  | .error _ => ""
  | .ok pages =>
    String.intercalate "\n" (pages.enum.filterMap (fun p =>
      match p.2 with
      | .error _ => none
      | .ok none => none
      | .ok (some t) => if t = "" then none else some (pageHeaderBlock (p.1 + 1) t)))

/-- `VisionService._extract_text_from_pil_image`: PNG-encode the page image
and call the recognition capability once; any exception, API error message,
or absent annotation list yields the empty string.  The second component
counts the `document_text_detection` calls made (0 when PNG encoding
already failed, 1 otherwise). -/
def extract_text_from_pil_image {Img : Type} (env : VisionEnv Img)
    (img : Img) : String × Nat :=
  match env.toPng img with
  | .error _ => ("", 0)
  | .ok png =>
    match env.detect png with
    | .error _ => ("", 1)
    | .ok resp =>
      if resp.errorMessage != "" then ("", 1)
      else
        match resp.texts with
        | [] => ("", 1)
        | d :: _ => (d, 1)

/-- Insertion step of the embedding of `text_parts.sort(key=lambda x: x[0])`. -/
def insertPage (x : Nat × String) : List (Nat × String) → List (Nat × String)
  | [] => [x]
  | y :: ys => if y.1 ≤ x.1 then y :: insertPage x ys else x :: y :: ys

/-- `text_parts.sort(key=lambda x: x[0])` as an insertion sort by page
number.  Page numbers produced by `enumerate(images, 1)` are pairwise
distinct, so any correct sort (Python's stable sort included) produces this
same list. -/
def sortPages : List (Nat × String) → List (Nat × String)
  | [] => []
  | x :: xs => insertPage x (sortPages xs)

/-- The gather step of `_extract_text_via_images`: keep the pages whose
text is non-empty (`if text:` inside the `as_completed` loop), then sort by
page number.  The argument lists the `(page_num, text)` pairs in the order
the page futures completed; the sort makes that order irrelevant (proved
below, claim C2). -/
def gatherParts (l : List (Nat × String)) : List (Nat × String) :=
  sortPages (l.filter (fun p => p.2 != ""))

/-- The final join of `_extract_text_via_images`:
`"\n".join(f"--- Page {num} ---\n{text}\n" for ...)` over the gathered,
sorted parts. -/
def gatherAndJoin (l : List (Nat × String)) : String :=
  String.intercalate "\n" ((gatherParts l).map (fun p => pageHeaderBlock p.1 p.2))

/-- `VisionService._extract_text_via_images`: rasterize the whole PDF
(`convert_from_bytes` receives no page bounds), recognize every page image
(pages numbered from 1 by `enumerate(images, 1)`), gather the non-empty
results, sort by page number and join.  A rasterization exception or an
empty image list yields the empty string.  The per-page results are listed
here in submission order; by claim C2 the output is the same for every
completion order.  The second component sums the recognition calls. -/
def extract_text_via_images {Img : Type} (env : VisionEnv Img)
    (b : Bytes) : String × Nat :=
  match env.convertImages b with
  | .error _ => ("", 0)
  | .ok imgs =>
    if imgs.isEmpty then ("", 0)
    else
      let perPage := imgs.enum.map (fun p => (p.1 + 1, extract_text_from_pil_image env p.2))
      (gatherAndJoin (perPage.map (fun q => (q.1, q.2.1))),
       (perPage.map (fun q => q.2.2)).sum)

/-- `VisionService._extract_text_from_image`: one recognition call on the
raw input bytes; exception, API error, or empty annotation list yields the
empty string. -/
def extract_text_from_image {Img : Type} (env : VisionEnv Img)
    (b : Bytes) : String × Nat :=
  match env.detect b with
  | .error _ => ("", 1)
  | .ok resp =>
    if resp.errorMessage != "" then ("", 1)
    else
      match resp.texts with
      | [] => ("", 1)
      | d :: _ => (d, 1)

/-- `VisionService._extract_text_from_pdf_hybrid`: Phase 1 direct
extraction; when its result is truthy and passes the quality gate it is
returned verbatim with zero recognition calls, otherwise Phase 2
(image-based recognition) runs.  Neither phase lets an exception escape,
so the function's own `except` branch is unreachable. -/
def extract_text_from_pdf_hybrid {Img : Type} (env : VisionEnv Img)
    (b : Bytes) : String × Nat :=
  let direct := extract_text_directly_from_pdf env b
  if direct ≠ "" ∧ is_text_quality_good direct = true then (direct, 0)
  else extract_text_via_images env b

/-- `VisionService.detect_text`: empty bytes yield the empty string; PDF
input (by magic bytes) is routed to the hybrid pipeline, everything else to
single-image recognition.  All helpers catch their own exceptions, so the
outer `except` is unreachable and the function is total. -/
def detect_text {Img : Type} (env : VisionEnv Img) (b : Bytes) : String × Nat :=
  if b = [] then ("", 0)
  else if is_pdf b then extract_text_from_pdf_hybrid env b
  else extract_text_from_image env b

/-- Modelled from the spec: `PageRangeResolver.resolve` (§4.2).  The
range-aware entry `detect_text_from_path(tmp_path, page_start, page_end)`
called from `app/main.py` is not among the sources, so the resolver is
taken from the spec's words: `start` defaults to 1 and is clamped to `≥ 1`;
`end` defaults to `totalPages` and is clamped to `≤ totalPages`. -/
def resolve (totalPages : Nat) (s? e? : Option Int) : Nat × Nat :=
  ((max 1 (s?.getD 1)).toNat, (min (totalPages : Int) (e?.getD (totalPages : Int))).toNat)

/-- The page numbers of a resolved range, ascending; empty when after
clamping `start > end`. -/
def rangePages (totalPages : Nat) (s? e? : Option Int) : List Nat :=
  let r := resolve totalPages s? e?
  List.range' r.1 (r.2 + 1 - r.1)

/-- Modelled from the spec: range-aware direct extraction (§4.3), the
downstream consumer of the resolver, absent from the sources together with
`detect_text_from_path`.  Per page of the resolved range it reads the text
layer (`pageText`), skips falsy results, and joins the page blocks; an
empty range yields no pages — an `Except.ok` empty text, not an error. -/
def extract_direct_range (pageText : Nat → Option String) (totalPages : Nat)
    (s? e? : Option Int) : Except String String :=
  .ok (String.intercalate "\n" ((rangePages totalPages s? e?).filterMap (fun n =>
    match pageText n with
    | none => none
    | some t => if t = "" then none else some (pageHeaderBlock n t))))

/-- Count of characters in the extended range 128–255 ("Latin-1
supplement"), the quantity the spec's extended-range rejection criterion
(§4.4) is stated about.  Used only to state claim C6; the source quality
gate computes no such count. -/
def extendedCount (l : List Char) : Nat :=
  (l.filter (fun c => 128 ≤ c.toNat && c.toNat ≤ 255)).length

/-! ### Concrete fixtures for witnesses and counterexamples -/

/-- Four bytes `%PDF`: the smallest input classified as a PDF. -/
def pdfB : Bytes := [0x25, 0x50, 0x44, 0x46]

/-- An environment in which every external capability fails (document
cannot be opened, cannot be rasterized, recognition unavailable). -/
def failEnv : VisionEnv Nat where
  openPdf := fun _ => .error "cannot open document"
  convertImages := fun _ => .error "cannot rasterize"
  toPng := fun _ => .error "cannot encode image"
  detect := fun _ => .error "capability unavailable"

/-- An environment for a genuinely empty document: the PDF opens with a
single page carrying no text layer, rasterizes to one image, and
recognition succeeds but finds no text. -/
def emptyOkEnv : VisionEnv Nat where
  openPdf := fun _ => .ok [.ok none]
  convertImages := fun _ => .ok [1]
  toPng := fun i => .ok [i]
  detect := fun _ => .ok ⟨"", []⟩

/-- A searchable-PDF environment: direct extraction yields one page of 60
letters, enough to pass the quality gate; the recognition capability is
present but must not be consulted. -/
def okPdfEnv : VisionEnv Nat where
  openPdf := fun _ => .ok [.ok (some (String.mk (List.replicate 60 'a')))]
  convertImages := fun _ => .ok [1]
  toPng := fun i => .ok [i]
  detect := fun _ => .ok ⟨"", ["should never be used"]⟩

/-- `okPdfEnv` with a different recognition capability (it always fails):
used to witness that direct extraction ignores the recognition fields. -/
def okPdfEnvBadReco : VisionEnv Nat where
  openPdf := fun _ => .ok [.ok (some (String.mk (List.replicate 60 'a')))]
  convertImages := fun _ => .error "different"
  toPng := fun _ => .error "different"
  detect := fun _ => .error "different"

/-- A five-page scanned-PDF environment in which recognition of page 3
raises and every other page succeeds with the given text. -/
def fiveEnv (t1 t2 t4 t5 : String) : VisionEnv Nat where
  openPdf := fun _ => .ok []
  convertImages := fun _ => .ok [1, 2, 3, 4, 5]
  toPng := fun i => .ok [i]
  detect := fun png =>
    if png = [3] then .error "recognition failed"
    else if png = [1] then .ok ⟨"", [t1]⟩
    else if png = [2] then .ok ⟨"", [t2]⟩
    else if png = [4] then .ok ⟨"", [t4]⟩
    else .ok ⟨"", [t5]⟩

/-- 500 characters, all `é` (code point 233, inside 128–255): extended
ratio 100 %, no CID markers, no control characters. -/
def extLatinText : String := String.mk (List.replicate 500 'é')

/-- A 500-character text whose `(cid:` markers make up exactly 10 % of its
length: ten markers (50 characters) followed by 450 letters. -/
def cidShareText : String :=
  String.join (List.replicate 10 "(cid:") ++ String.mk (List.replicate 450 'a')

/-- 100 characters that are twenty `(cid:` markers: occurrence count is
20 % of the length, far above the 5 % gate. -/
def cidHeavyText : String := String.join (List.replicate 20 "(cid:")

/-- A clean 500-character paragraph in the target script (Devanagari). -/
def cleanDevanagari : String := String.mk (List.replicate 500 'क')

/-! ### Helper lemmas about the page sort -/

set_option maxRecDepth 40000

theorem insertPage_perm (x : Nat × String) (l : List (Nat × String)) :
    List.Perm (insertPage x l) (x :: l) := by
  induction l with
  | nil => exact List.Perm.refl _
  | cons y ys ih =>
    unfold insertPage
    by_cases h : y.1 ≤ x.1
    · rw [if_pos h]
      exact (ih.cons y).trans (List.Perm.swap x y ys)
    · rw [if_neg h]

theorem sortPages_perm (l : List (Nat × String)) : List.Perm (sortPages l) l := by
  induction l with
  | nil => exact List.Perm.refl _
  | cons x xs ih =>
    unfold sortPages
    exact (insertPage_perm x (sortPages xs)).trans (ih.cons x)

theorem insertPage_sorted (x : Nat × String) {l : List (Nat × String)}
    (h : l.Pairwise (fun a b => a.1 ≤ b.1)) :
    (insertPage x l).Pairwise (fun a b => a.1 ≤ b.1) := by
  induction l with
  | nil => simp [insertPage]
  | cons y ys ih =>
    rw [List.pairwise_cons] at h
    unfold insertPage
    by_cases hc : y.1 ≤ x.1
    · rw [if_pos hc]
      rw [List.pairwise_cons]
      refine ⟨fun z hz => ?_, ih h.2⟩
      rcases List.mem_cons.mp ((insertPage_perm x ys).mem_iff.mp hz) with hz | hz
      · rw [hz]; exact hc
      · exact h.1 z hz
    · rw [if_neg hc]
      rw [List.pairwise_cons]
      refine ⟨fun z hz => ?_, List.pairwise_cons.mpr h⟩
      rcases List.mem_cons.mp hz with hz | hz
      · rw [hz]; exact le_of_not_le hc
      · exact le_trans (le_of_not_le hc) (h.1 z hz)

theorem sortPages_sorted (l : List (Nat × String)) :
    (sortPages l).Pairwise (fun a b => a.1 ≤ b.1) := by
  induction l with
  | nil => simp [sortPages]
  | cons x xs ih => exact insertPage_sorted x ih

theorem gatherParts_sorted_lt {l : List (Nat × String)}
    (hnd : (l.map Prod.fst).Nodup) :
    (gatherParts l).Pairwise (fun a b => a.1 < b.1) := by
  have hperm : List.Perm (gatherParts l) (l.filter (fun p => p.2 != "")) :=
    sortPages_perm _
  have hsub : List.Sublist ((l.filter (fun p => p.2 != "")).map Prod.fst)
      (l.map Prod.fst) :=
    (List.filter_sublist l).map Prod.fst
  have hnd2 : ((gatherParts l).map Prod.fst).Nodup :=
    ((hperm.map Prod.fst).nodup_iff).mpr (hnd.sublist hsub)
  have hne : (gatherParts l).Pairwise (fun a b => a.1 ≠ b.1) :=
    List.pairwise_map.mp hnd2
  exact ((sortPages_sorted _).and hne).imp (fun h => lt_of_le_of_ne h.1 h.2)

/-! ### Claims -/

/-- C1: for every PDF input whose direct-extraction text passes the quality
gate, `detect_text` returns that text verbatim and performs zero
recognition calls. -/
theorem detect_text_accepted_direct {Img : Type} (env : VisionEnv Img)
    (b : Bytes) (hpdf : is_pdf b = true)
    (hq : is_text_quality_good (extract_text_directly_from_pdf env b) = true) :
    detect_text env b = (extract_text_directly_from_pdf env b, 0) := by
  have hne : extract_text_directly_from_pdf env b ≠ "" := by
    intro h
    rw [h] at hq
    exact absurd hq (by decide)
  have hb : b ≠ [] := by
    intro h
    rw [h] at hpdf
    exact absurd hpdf (by decide)
  simp [detect_text, hb, hpdf, extract_text_from_pdf_hybrid, hne, hq]

/-- C1 witness: a concrete searchable PDF whose direct text passes the gate
is returned verbatim with zero recognition calls. -/
theorem detect_text_accepted_direct_witness :
    detect_text okPdfEnv pdfB = (extract_text_directly_from_pdf okPdfEnv pdfB, 0) :=
  detect_text_accepted_direct okPdfEnv pdfB (by decide) (by decide)

/-- C2: the gathered output of the image-based path is invariant under any
permutation of the order in which page tasks complete, and its page blocks
are in strictly ascending page-number order. -/
theorem gather_perm_invariant (l l' : List (Nat × String))
    (hp : List.Perm l l') (hnd : (l.map Prod.fst).Nodup) :
    gatherAndJoin l = gatherAndJoin l' ∧
      (gatherParts l).Pairwise (fun a b => a.1 < b.1) := by
  have hnd' : (l'.map Prod.fst).Nodup := ((hp.map Prod.fst).nodup_iff).mp hnd
  have s1 := gatherParts_sorted_lt hnd
  have s2 := gatherParts_sorted_lt hnd'
  have hperm : List.Perm (gatherParts l) (gatherParts l') :=
    (sortPages_perm _).trans ((hp.filter _).trans (sortPages_perm _).symm)
  haveI : IsAntisymm (Nat × String) (fun a b => a.1 < b.1) :=
    ⟨fun a b h1 h2 => absurd h2 (not_lt.mpr h1.le)⟩
  have heq : gatherParts l = gatherParts l' :=
    List.eq_of_perm_of_sorted hperm s1 s2
  exact ⟨by rw [gatherAndJoin, gatherAndJoin, heq], s1⟩

/-- C2 witness: a concrete two-page completion order and its reversal give
the same joined output, which is strictly ascending by page number. -/
theorem gather_perm_invariant_witness :
    gatherAndJoin [(2, "b"), (1, "a")] = gatherAndJoin [(1, "a"), (2, "b")] ∧
      (gatherParts [(2, "b"), (1, "a")]).Pairwise (fun a b => a.1 < b.1) :=
  gather_perm_invariant [(2, "b"), (1, "a")] [(1, "a"), (2, "b")]
    (List.Perm.swap _ _ _) (by decide)

/-- C3 counterexample: a document-level failure (the PDF can neither be
opened nor rasterized) is returned through the success channel as the empty
string — the same value a genuinely empty document produces — instead of
propagating as a structured error. -/
theorem detect_text_conflates_failure_and_empty :
    detect_text failEnv pdfB = ("", 0) ∧ (detect_text emptyOkEnv pdfB).1 = "" :=
  ⟨rfl, rfl⟩

/-- C3 amended: document-level failures are swallowed: whenever opening and
rasterizing both raise, `detect_text` returns the empty string through its
only (success) channel, indistinguishable from a successful empty result. -/
theorem detect_text_swallows_document_failures {Img : Type}
    (env : VisionEnv Img) (b : Bytes) (e e' : String)
    (hpdf : is_pdf b = true)
    (hO : env.openPdf b = .error e) (hC : env.convertImages b = .error e') :
    detect_text env b = ("", 0) := by
  have hb : b ≠ [] := by
    intro h
    rw [h] at hpdf
    exact absurd hpdf (by decide)
  simp [detect_text, hb, hpdf, extract_text_from_pdf_hybrid,
    extract_text_directly_from_pdf, hO, extract_text_via_images, hC]

/-- C3 amended witness: the concrete all-failing environment yields the
empty string on a PDF input. -/
theorem detect_text_swallows_document_failures_witness :
    detect_text failEnv pdfB = ("", 0) :=
  detect_text_swallows_document_failures failEnv pdfB
    "cannot open document" "cannot rasterize" (by decide) rfl rfl

/-- C4: the resolver clamps the window against the true page count —
`resolve 10 none none = (1, 10)`, `resolve 10 (some 0) (some 999) = (1, 10)`,
`resolve 10 (some 7) (some 3)` is the empty range, and downstream direct
extraction on the empty range yields no pages (`Except.ok ""`), not an
error. -/
theorem resolve_clamps :
    resolve 10 none none = (1, 10) ∧
      resolve 10 (some 0) (some 999) = (1, 10) ∧
      rangePages 10 (some 7) (some 3) = [] ∧
      extract_direct_range (fun _ => some "page text") 10 (some 7) (some 3) =
        Except.ok "" :=
  ⟨by decide, by decide, by decide, rfl⟩

/-- C6 counterexample: a 500-character text consisting entirely of
extended-range characters (ratio 100 %, far above 2 %) is accepted by the
quality gate — the source performs no extended-range check. -/
theorem quality_accepts_full_extended_range :
    extendedCount extLatinText.data = extLatinText.length ∧
      2 * extLatinText.length < extendedCount extLatinText.data * 100 ∧
      is_text_quality_good extLatinText = true := by
  decide

/-- C6 amended: the quality gate applies no extended-range check — any text
with trimmed length at least 50, CID-occurrence ratio at most 5 % and
control-character ratio at most 10 % is accepted, regardless of its
extended-range character ratio. -/
theorem quality_has_no_extended_range_check (s : String)
    (hlen : 50 ≤ (pyStrip s.data).length)
    (hcid : countCid s.data * 100 ≤ 5 * s.length)
    (hctl : countCtrl s.data * 100 ≤ 10 * s.length) :
    is_text_quality_good s = true := by
  have hs : s ≠ "" := by
    intro h
    rw [h] at hlen
    exact absurd hlen (by decide)
  unfold is_text_quality_good
  rw [if_neg, if_neg, if_neg]
  · omega
  · omega
  · exact fun h => h.elim hs (by omega)

/-- C6 amended witness: the all-extended-range text satisfies the three
hypotheses and is accepted. -/
theorem quality_has_no_extended_range_check_witness :
    is_text_quality_good extLatinText = true :=
  quality_has_no_extended_range_check extLatinText (by decide) (by decide)
    (by decide)

/-- C7 counterexample: a 500-character text whose `(cid:` markers make up
exactly 10 % of its length (ten markers, fifty characters) is accepted by
the quality gate, because the gate compares the occurrence count — here
2 % — against 5 %, not the characters the markers occupy. -/
theorem quality_accepts_ten_percent_cid_share :
    countCid cidShareText.data * 5 * 10 = cidShareText.length ∧
      is_text_quality_good cidShareText = true := by
  decide

/-- C7 amended: the gate rejects the empty string; it rejects any text
whose `(cid:` occurrence count exceeds 5 % of its length (markers occupying
over 25 % of the characters); and it accepts a clean 500-character
paragraph in the target script. -/
theorem quality_gate_examples :
    is_text_quality_good "" = false ∧
      (∀ s : String, 5 * s.length < countCid s.data * 100 →
        is_text_quality_good s = false) ∧
      is_text_quality_good cleanDevanagari = true := by
  refine ⟨by decide, ?_, by decide⟩
  intro s h
  unfold is_text_quality_good
  by_cases h1 : s = "" ∨ (pyStrip s.data).length < 50
  · rw [if_pos h1]
  · rw [if_neg h1, if_pos h]

/-- C7 amended witness: a text that is nothing but `(cid:` markers
(occurrence count 20 % of length) is rejected. -/
theorem quality_gate_examples_witness :
    is_text_quality_good cidHeavyText = false :=
  quality_gate_examples.2.1 cidHeavyText (by decide)

/-- C8: a single page's recognition failure among five pages yields an
empty slot for that page only: the batch is not aborted, and the output is
exactly the other four pages' blocks in page order, while all five
recognition calls were attempted. -/
theorem single_page_failure_isolated (t1 t2 t4 t5 : String)
    (h1 : t1 ≠ "") (h2 : t2 ≠ "") (h4 : t4 ≠ "") (h5 : t5 ≠ "") :
    extract_text_via_images (fiveEnv t1 t2 t4 t5) pdfB =
      (String.intercalate "\n" [pageHeaderBlock 1 t1, pageHeaderBlock 2 t2,
        pageHeaderBlock 4 t4, pageHeaderBlock 5 t5], 5) := by
  have e1 : (t1 != "") = true := bne_iff_ne.mpr h1
  have e2 : (t2 != "") = true := bne_iff_ne.mpr h2
  have e4 : (t4 != "") = true := bne_iff_ne.mpr h4
  have e5 : (t5 != "") = true := bne_iff_ne.mpr h5
  show (gatherAndJoin [(1, t1), (2, t2), (3, ""), (4, t4), (5, t5)], 5) =
    (String.intercalate "\n" [pageHeaderBlock 1 t1, pageHeaderBlock 2 t2,
      pageHeaderBlock 4 t4, pageHeaderBlock 5 t5], 5)
  simp [gatherAndJoin, gatherParts, List.filter_cons, e1, e2, e4, e5,
    sortPages, insertPage]

/-- C8 witness: concrete page texts — page 3's recognition raises, the
other four pages' texts all appear, in order. -/
theorem single_page_failure_isolated_witness :
    extract_text_via_images (fiveEnv "A" "B" "D" "E") pdfB =
      (String.intercalate "\n" [pageHeaderBlock 1 "A", pageHeaderBlock 2 "B",
        pageHeaderBlock 4 "D", pageHeaderBlock 5 "E"], 5) :=
  single_page_failure_isolated "A" "B" "D" "E" (by decide) (by decide)
    (by decide) (by decide)

/-- C9: direct extraction depends only on the page-content accessor — two
environments with the same `openPdf` (and arbitrary, possibly different,
recognition capabilities) produce identical text on the same bytes; with
the accessor a fixed function, repeated invocation is byte-identical. -/
theorem direct_extraction_reco_independent {Img : Type}
    (env1 env2 : VisionEnv Img) (b : Bytes)
    (h : env1.openPdf = env2.openPdf) :
    extract_text_directly_from_pdf env1 b = extract_text_directly_from_pdf env2 b := by
  unfold extract_text_directly_from_pdf
  rw [h]

/-- C9 witness: the same PDF under an environment whose recognition
capability always fails yields the same direct text as under one where it
succeeds. -/
theorem direct_extraction_reco_independent_witness :
    extract_text_directly_from_pdf okPdfEnv pdfB =
      extract_text_directly_from_pdf okPdfEnvBadReco pdfB :=
  direct_extraction_reco_independent okPdfEnv okPdfEnvBadReco pdfB rfl

/-- C10: `detect_text` is total by construction (every exception path of
the source is an explicit branch of the embedding), and when every external
capability fails — document cannot be opened, rasterized, or recognized —
it returns the empty string rather than propagating a failure. -/
theorem detect_text_empty_on_failures {Img : Type} (env : VisionEnv Img)
    (b : Bytes) (eo ec ed : Bytes → String)
    (hO : ∀ x, env.openPdf x = .error (eo x))
    (hC : ∀ x, env.convertImages x = .error (ec x))
    (hD : ∀ x, env.detect x = .error (ed x)) :
    (detect_text env b).1 = "" := by
  unfold detect_text
  by_cases hb : b = []
  · simp [hb]
  · by_cases hp : is_pdf b = true
    · simp [hb, hp, extract_text_from_pdf_hybrid,
        extract_text_directly_from_pdf, hO b, extract_text_via_images, hC b]
    · simp [hb, hp, extract_text_from_image, hD b]

/-- C10 witness: the all-failing environment returns the empty string on a
non-PDF (image-routed) input. -/
theorem detect_text_empty_on_failures_witness :
    (detect_text failEnv [0xff]).1 = "" :=
  detect_text_empty_on_failures failEnv [0xff]
    (fun _ => "cannot open document") (fun _ => "cannot rasterize")
    (fun _ => "capability unavailable") (fun _ => rfl) (fun _ => rfl)
    (fun _ => rfl)
